import Mathlib

/-!
Shallow embedding of the gpt-cli session and interaction engine
(`src/components/Chat.tsx` and its compiled build). The embedding models:

* the `Message` / `Session` / `Config` records,
* the on-disk session store (`saveSession`, `loadSession`, `listSessions`,
  `cleanupOldSessions`) as an association list keyed by session id — one
  entry per parsable `.json` file in the history directory (the JSON
  serialization layer is modeled as the identity on `Session` records,
  which is exact for serializable sessions),
* the title generator fallback (`generateSessionTitle`),
* the virtual-scroll window (`estimateMessageRows`, `computeMaxVisible`,
  the `startIndex`/`endIndex` slice),
* the chat component state (`ChatState`) with the overlay flags, the two
  input-driven React effects, and the `handleSubmit` / `resumeSession` /
  `handleResumePrompt` handlers.  External I/O (the completion stream,
  file reads, the title request) is passed in as an explicit environment.
-/

namespace GptCli

/-- `Message.role` in the source is the union type `'user' | 'assistant'`. -/
inductive Role where
  | user
  | assistant
  deriving DecidableEq, Repr

/-- The `Message` interface of `Chat.tsx`.  `isStreaming?: boolean` and
`model?: string` are optional fields; an absent `isStreaming` behaves as
`false` everywhere it is read, so it is modeled with default `false`. -/
structure Message where
  role : Role
  content : String
  isStreaming : Bool := false
  model : Option String := none
  deriving DecidableEq, Repr

/-- The `Session` interface of `Chat.tsx` (timestamps are epoch
milliseconds, modeled as `Nat`). -/
structure Session where
  id : String
  title : String
  createdAt : Nat
  updatedAt : Nat
  messages : List Message
  model : String
  deriving DecidableEq, Repr

/-- `MAX_HISTORY_SESSIONS` in `Chat.tsx`. -/
def MAX_HISTORY_SESSIONS : Nat := 50

/-- The on-disk history directory: one record per parsable session file,
keyed by the file's session id (files are written as `<id>.json`, so the
key is the id).  Directory entries have pairwise distinct names. -/
abbrev Store := List (String × Session)

/-- `loadSession` in `Chat.tsx`: exact-id lookup of `<id>.json`; a missing
or unparsable file yields `null` (here `none`). -/
def loadSession (sessionId : String) (store : Store) : Option Session :=
  (store.find? (fun kv => kv.1 == sessionId)).map (·.2)

/-- `saveSession` in `Chat.tsx`: `writeFile` of the serialized session to
`<session.id>.json`, i.e. an upsert keyed by `session.id` (the directory
is unordered, so the store is read up to permutation of its entries). -/
def saveSession (session : Session) (store : Store) : Store :=
  (session.id, session) :: store.filter (fun kv => kv.1 != session.id)

/-- `listSessions` in `Chat.tsx`: parse every `.json` file, sort by
`updatedAt` descending (a stable comparator sort, modeled by
`insertionSort`), and keep the newest 10. -/
def listSessions (store : Store) : List Session :=
  ((store.map (·.2)).insertionSort (fun a b => b.updatedAt ≤ a.updatedAt)).take 10

/-- The `toDelete` list computed by `cleanupOldSessions` in `Chat.tsx`:
if more than `MAX_HISTORY_SESSIONS` parsable sessions exist, the excess
oldest ones (sorted by `updatedAt` ascending) are unlinked. -/
def cleanupToDelete (store : Store) : Store :=
  if store.length > MAX_HISTORY_SESSIONS then
    (store.insertionSort (fun a b => a.2.updatedAt ≤ b.2.updatedAt)).take
      (store.length - MAX_HISTORY_SESSIONS)
  else []

/-- The store left on disk after `cleanupOldSessions`: every file except
the unlinked ones. -/
def cleanupRemaining (store : Store) : Store :=
  store.filter (fun kv => !((cleanupToDelete store).map (·.1)).contains kv.1)

/-! ### Session store: save/load round-trip (claim C5) -/

theorem filter_ne_then_eq (l : List (String × Session)) (x : String) :
    (l.filter (fun kv => kv.1 != x)).filter (fun kv => kv.1 == x) = [] := by
  rw [List.filter_filter]
  simp

/-- Claim C5: for every serializable session `s`, `save(s)` followed by
`load(s.id)` succeeds and yields a session equal to `s` in all fields, and
saving another session `s2` with the same id overwrites the previous
record: the load then yields `s2`, and the store holds exactly one record
keyed by that id, namely `s2`'s. -/
theorem save_load_roundtrip (store : Store) (s s2 : Session)
    (hid : s2.id = s.id) :
    loadSession s.id (saveSession s store) = some s ∧
    loadSession s.id (saveSession s2 (saveSession s store)) = some s2 ∧
    (saveSession s2 (saveSession s store)).filter (fun kv => kv.1 == s.id) =
      [(s2.id, s2)] := by
  refine ⟨?_, ?_, ?_⟩
  · simp [loadSession, saveSession, List.find?]
  · simp [loadSession, saveSession, List.find?, hid]
  · show ((s2.id, s2) :: (saveSession s store).filter (fun kv => kv.1 != s2.id)).filter
        (fun kv => kv.1 == s.id) = [(s2.id, s2)]
    rw [List.filter_cons]
    simp only [hid, beq_self_eq_true, if_true]
    rw [filter_ne_then_eq]

def c5sA : Session :=
  { id := "s1", title := "hello", createdAt := 1, updatedAt := 2,
    messages := [{ role := .user, content := "hi" }], model := "gpt-4o" }

def c5sB : Session :=
  { c5sA with title := "hello again", updatedAt := 7 }

theorem save_load_roundtrip_witness :
    loadSession "s1" (saveSession c5sA []) = some c5sA :=
  (save_load_roundtrip [] c5sA c5sB rfl).1

/-! ### Session store: retention cleanup (claim C3) -/

/-- The ascending comparator used by `cleanupOldSessions`
(`(a, b) => a.updatedAt - b.updatedAt`). -/
def cleanupLe (a b : String × Session) : Prop :=
  a.2.updatedAt ≤ b.2.updatedAt

instance : DecidableRel cleanupLe := fun x y => Nat.decLe x.2.updatedAt y.2.updatedAt

instance : IsTotal (String × Session) cleanupLe :=
  ⟨fun a b => Nat.le_total a.2.updatedAt b.2.updatedAt⟩

instance : IsTrans (String × Session) cleanupLe :=
  ⟨fun _ _ _ hab hbc => Nat.le_trans hab hbc⟩

theorem cleanupToDelete_eq (store : Store)
    (hM : store.length > MAX_HISTORY_SESSIONS) :
    cleanupToDelete store =
      (store.insertionSort (fun a b => a.2.updatedAt ≤ b.2.updatedAt)).take
        (store.length - MAX_HISTORY_SESSIONS) := by
  simp [cleanupToDelete, hM]

/-- Claim C3: on a store of `M > 50` parsable sessions (directory entries
have distinct names), cleanup deletes exactly `M - 50` sessions, leaves
exactly 50, the deleted and remaining files partition the store, and every
retained session's `updatedAt` is at least every deleted session's. -/
theorem cleanup_retention (store : Store)
    (hnd : (store.map (·.1)).Nodup)
    (hM : store.length > MAX_HISTORY_SESSIONS) :
    (cleanupRemaining store).length = MAX_HISTORY_SESSIONS ∧
    (cleanupToDelete store).length = store.length - MAX_HISTORY_SESSIONS ∧
    store.Perm (cleanupToDelete store ++ cleanupRemaining store) ∧
    ∀ rr ∈ cleanupRemaining store, ∀ dd ∈ cleanupToDelete store,
      dd.2.updatedAt ≤ rr.2.updatedAt := by
  classical
  set k := store.length - MAX_HISTORY_SESSIONS with hk
  set sorted := store.insertionSort (fun a b => a.2.updatedAt ≤ b.2.updatedAt)
    with hsorteddef
  have hdel : cleanupToDelete store = sorted.take k := cleanupToDelete_eq store hM
  have hperm : sorted.Perm store := List.perm_insertionSort _ store
  have hlen : sorted.length = store.length := hperm.length_eq
  have hkle : k ≤ sorted.length := by omega
  have hsorted : List.Sorted cleanupLe sorted := by
    have := List.sorted_insertionSort cleanupLe store
    simpa [cleanupLe, hsorteddef] using this
  have hsplit : sorted.take k ++ sorted.drop k = sorted := List.take_append_drop k sorted
  have hpair : ∀ dd ∈ sorted.take k, ∀ rr ∈ sorted.drop k, cleanupLe dd rr := by
    have hpw : List.Pairwise cleanupLe (sorted.take k ++ sorted.drop k) := by
      rw [hsplit]; exact hsorted
    exact fun dd hdd rr hrr => (List.pairwise_append.mp hpw).2.2 dd hdd rr hrr
  -- distinct keys transfer to the sorted list and split over take/drop
  have hndsorted : (sorted.map (·.1)).Nodup := ((hperm.map (·.1)).nodup_iff).mpr hnd
  have hdisj : ∀ rr ∈ sorted.drop k, rr.1 ∉ (sorted.take k).map (·.1) := by
    intro rr hrr hmem
    have : ((sorted.take k).map (·.1) ++ (sorted.drop k).map (·.1)).Nodup := by
      rw [← List.map_append, hsplit]; exact hndsorted
    exact (List.nodup_append.mp this).2.2 hmem (List.mem_map_of_mem (·.1) hrr)
  -- the remaining store is a permutation of the dropped suffix
  have hfilterdel : (sorted.take k).filter
      (fun kv => !((cleanupToDelete store).map (·.1)).contains kv.1) = [] := by
    rw [List.filter_eq_nil_iff]
    intro a ha
    simp only [Bool.not_eq_true', Bool.not_eq_false, List.contains_eq_any_beq, List.any_eq_true]
    exact ⟨a.1, by rw [hdel]; exact List.mem_map_of_mem (·.1) ha, by simp⟩
  have hfilterkeep : (sorted.drop k).filter
      (fun kv => !((cleanupToDelete store).map (·.1)).contains kv.1) = sorted.drop k := by
    rw [List.filter_eq_self]
    intro a ha
    simp only [Bool.not_eq_true', List.contains_eq_any_beq, List.any_eq_false]
    intro key hkey
    rw [hdel] at hkey
    intro hbeq
    exact hdisj a ha (by rwa [← (beq_iff_eq.mp hbeq)] at hkey)
  have hremperm : (cleanupRemaining store).Perm (sorted.drop k) := by
    have h1 : (cleanupRemaining store).Perm (sorted.filter
        (fun kv => !((cleanupToDelete store).map (·.1)).contains kv.1)) :=
      (hperm.filter _).symm
    rwa [← hsplit, List.filter_append, hfilterdel, hfilterkeep, List.nil_append] at h1
  have hdellen : (cleanupToDelete store).length = k := by
    rw [hdel, List.length_take]; omega
  refine ⟨?_, ?_, ?_, ?_⟩
  · rw [hremperm.length_eq, List.length_drop]; omega
  · exact hdellen
  · calc store.Perm sorted := hperm.symm
      _ = sorted.take k ++ sorted.drop k := hsplit.symm
      _ |>.Perm (cleanupToDelete store ++ cleanupRemaining store) := by
          rw [hdel]
          exact (hremperm.symm).append_left (sorted.take k)
  · intro rr hrr dd hdd
    have hrr2 : rr ∈ sorted.drop k := hremperm.mem_iff.mp hrr
    have hdd2 : dd ∈ sorted.take k := by rwa [hdel] at hdd
    exact hpair dd hdd2 rr hrr2

def c3mk (i : Nat) : String × Session :=
  (toString i,
   { id := toString i, title := "t", createdAt := 0, updatedAt := i,
     messages := [], model := "gpt-4o-mini" })

def c3store : Store := (List.range 51).map c3mk

theorem cleanup_retention_witness :
    (cleanupRemaining c3store).length = MAX_HISTORY_SESSIONS :=
  (cleanup_retention c3store (by decide) (by decide)).1

/-! ### JavaScript string primitives

The JS string operations are modeled on the character list of the string
(JS strings are code-unit sequences; for the ASCII text handled here the
two views agree).  These are structural recursions, so concrete states
evaluate inside the kernel. -/

/-- `String.prototype.split(sep)` for a one-character separator (the code
only splits on `'\n'` and `' '`); empty pieces are kept, as in JS. -/
def jsSplitCharAux (c : Char) : List Char → List Char → List String
  | [], acc => [String.mk acc.reverse]
  | x :: rest, acc =>
    if x = c then String.mk acc.reverse :: jsSplitCharAux c rest []
    else jsSplitCharAux c rest (x :: acc)

def jsSplitChar (c : Char) (s : String) : List String :=
  jsSplitCharAux c s.data []

/-- `Array.prototype.join(sep)`. -/
def jsJoin (sep : String) : List String → String
  | [] => ""
  | [x] => x
  | x :: rest => x ++ sep ++ jsJoin sep rest

/-- `String.prototype.trim()`: strip whitespace from both ends. -/
def jsTrim (s : String) : String :=
  String.mk ((s.data.dropWhile Char.isWhitespace).reverse.dropWhile Char.isWhitespace).reverse

/-- `String.prototype.startsWith(p)`. -/
def jsStartsWith (s p : String) : Bool :=
  p.data.isPrefixOf s.data

/-- `String.prototype.substring(0, n)` / `slice(0, n)`. -/
def jsTake (s : String) (n : Nat) : String := String.mk (s.data.take n)

/-- `String.prototype.slice(n)` (for nonnegative `n`). -/
def jsDrop (s : String) (n : Nat) : String := String.mk (s.data.drop n)

/-- `String.prototype.toLowerCase()` (ASCII case folding). -/
def jsToLower (s : String) : String := String.mk (s.data.map Char.toLower)

/-! ### ScrollWindow (claim C9) -/

def RESERVED_CHROME_ROWS : Int := 8
def MIN_VISIBLE_MESSAGES : Nat := 3
def ROWS_PER_MESSAGE_OVERHEAD : Nat := 3

/-- `estimateMessageRows` from the compiled build: a fixed per-message
overhead plus, per content line, `ceil(lineLength / usableCols)` rows
(1 row for an empty line), with `usableCols = max(1, terminalCols - 2)`. -/
def estimateMessageRows (message : Message) (terminalCols : Int) : Nat :=
  let lines := jsSplitChar '\n' message.content
  let usableCols := (max 1 (terminalCols - 2)).toNat
  ROWS_PER_MESSAGE_OVERHEAD +
    (lines.map (fun line =>
      if line.length = 0 then 1 else (line.length + usableCols - 1) / usableCols)).sum

/-- The backward walk inside `computeMaxVisible`: the argument list is the
prefix `messages[0..endIdx)` reversed, so its head is `messages[endIdx-1]`. -/
def computeMaxVisibleGo (terminalCols availableRows : Int) :
    List Message → Nat → Nat → Nat
  | [], _, count => count
  | m :: rest, usedRows, count =>
    let rowsNeeded := estimateMessageRows m terminalCols
    if (usedRows + rowsNeeded : Int) > availableRows ∧ MIN_VISIBLE_MESSAGES ≤ count then
      count
    else
      computeMaxVisibleGo terminalCols availableRows rest (usedRows + rowsNeeded) (count + 1)

/-- `computeMaxVisible` from the compiled build: dynamically count how many
messages (walking backward from `messages.length - scrollOffset`) fit in
`terminalRows - RESERVED_CHROME_ROWS` rows, never below
`MIN_VISIBLE_MESSAGES`. -/
def computeMaxVisible (messages : List Message) (scrollOffset : Nat)
    (terminalRows terminalCols : Int) : Nat :=
  if messages.isEmpty then MIN_VISIBLE_MESSAGES
  else
    let availableRows := terminalRows - RESERVED_CHROME_ROWS
    let endIdx := (max 0 ((messages.length : Int) - scrollOffset)).toNat
    max MIN_VISIBLE_MESSAGES
      (computeMaxVisibleGo terminalCols availableRows (messages.take endIdx).reverse 0 0)

structure ScrollWindowResult where
  startIndex : Nat
  endIndex : Nat
  visibleMessages : List Message
  hasMoreAbove : Bool
  hasMoreBelow : Bool
  deriving DecidableEq, Repr

/-- The visible-window computation of the chat component:
`startIndex = max(0, total - maxVisibleMessages - scrollOffset)`,
`endIndex = max(0, total - scrollOffset)`,
`visibleMessages = messages.slice(startIndex, endIndex)`,
`hasMoreAbove = startIndex > 0`, `hasMoreBelow = scrollOffset > 0`. -/
def scrollWindow (messages : List Message) (scrollOffset : Nat)
    (terminalRows terminalCols : Int) : ScrollWindowResult :=
  let maxVisibleMessages := computeMaxVisible messages scrollOffset terminalRows terminalCols
  let totalMessages := messages.length
  let startIndex := (max 0 ((totalMessages : Int) - maxVisibleMessages - scrollOffset)).toNat
  let endIndex := (max 0 ((totalMessages : Int) - scrollOffset)).toNat
  { startIndex := startIndex
    endIndex := endIndex
    visibleMessages := (messages.drop startIndex).take (endIndex - startIndex)
    hasMoreAbove := decide (0 < startIndex)
    hasMoreBelow := decide (0 < scrollOffset) }

theorem min_visible_le_computeMaxVisible (messages : List Message) (scrollOffset : Nat)
    (terminalRows terminalCols : Int) :
    MIN_VISIBLE_MESSAGES ≤ computeMaxVisible messages scrollOffset terminalRows terminalCols := by
  unfold computeMaxVisible
  split
  · exact Nat.le_refl _
  · exact Nat.le_max_left _ _

/-- Claim C9 counterexample: on an empty message list (scroll offset 0,
a 24x80 viewport) the visible slice has 0 messages, below the claimed
minimum floor of 3. -/
theorem scrollWindow_floor_counterexample :
    (scrollWindow [] 0 24 80).visibleMessages.length = 0 ∧
    ¬ MIN_VISIBLE_MESSAGES ≤ (scrollWindow [] 0 24 80).visibleMessages.length := by
  decide

/-- Claim C9 (amended): for every message list, viewport size and scroll
offset, the window satisfies `startIndex ≤ endIndex ≤ messages.length`,
the visible slice has exactly `endIndex - startIndex` messages, the count
is at least `min 3 (messages.length - scrollOffset)` (the floor of 3 holds
whenever at least 3 messages lie at or below the scroll offset), and
`hasMoreAbove`/`hasMoreBelow` are exactly `startIndex > 0` and
`scrollOffset > 0`. -/
theorem scrollWindow_bounds (messages : List Message) (scrollOffset : Nat)
    (terminalRows terminalCols : Int) :
    (scrollWindow messages scrollOffset terminalRows terminalCols).startIndex ≤
      (scrollWindow messages scrollOffset terminalRows terminalCols).endIndex ∧
    (scrollWindow messages scrollOffset terminalRows terminalCols).endIndex ≤
      messages.length ∧
    (scrollWindow messages scrollOffset terminalRows terminalCols).visibleMessages.length =
      (scrollWindow messages scrollOffset terminalRows terminalCols).endIndex -
        (scrollWindow messages scrollOffset terminalRows terminalCols).startIndex ∧
    min MIN_VISIBLE_MESSAGES (messages.length - scrollOffset) ≤
      (scrollWindow messages scrollOffset terminalRows terminalCols).visibleMessages.length ∧
    (scrollWindow messages scrollOffset terminalRows terminalCols).hasMoreAbove =
      decide (0 < (scrollWindow messages scrollOffset terminalRows terminalCols).startIndex) ∧
    (scrollWindow messages scrollOffset terminalRows terminalCols).hasMoreBelow =
      decide (0 < scrollOffset) := by
  have hm := min_visible_le_computeMaxVisible messages scrollOffset terminalRows terminalCols
  simp only [scrollWindow, List.length_take, List.length_drop]
  set m := computeMaxVisible messages scrollOffset terminalRows terminalCols with hmdef
  have h3 : MIN_VISIBLE_MESSAGES = 3 := rfl
  refine ⟨?_, ?_, ?_, ?_, by trivial, by trivial⟩ <;> omega

/-! ### Title generation (claim C8) -/

/-- The fallback branch of `generateSessionTitle`: the first 5
space-separated words; if that prefix exceeds 30 characters, its first 30
characters with an appended ellipsis. -/
def fallbackTitle (firstMessage : String) : String :=
  let words := jsJoin " " ((jsSplitChar ' ' firstMessage).take 5)
  if 30 < words.length then jsTake words 30 ++ "..." else words

def isQuoteChar (c : Char) : Bool := c = '"' || c = Char.ofNat 39

/-- The `title.replace(/^["']|["']$/g, '')` step: at most one leading and
one trailing quote character are removed (a single quote character is
matched only once, by the start anchor). -/
def stripEdgeQuotes (s : String) : String :=
  let cs :=
    match s.data with
    | c :: rest => if isQuoteChar c then rest else s.data
    | [] => []
  match cs.getLast? with
  | some c => if isQuoteChar c then String.mk cs.dropLast else String.mk cs
  | none => String.mk cs

/-- `generateSessionTitle`: the provider call is passed in as
`titleResult` (`some content` = the request succeeded with that message
content; `none` = the request threw).  On success the trimmed content
(defaulted to "Untitled" when empty) has its edge quotes stripped; on any
failure the title is `fallbackTitle`. -/
def generateSessionTitle (titleResult : Option String) (firstMessage : String) : String :=
  match titleResult with
  | some content =>
    let t := jsTrim content
    stripEdgeQuotes (if t = "" then "Untitled" else t)
  | none => fallbackTitle firstMessage

/-! ### The chat component: state, commands, effects, submit -/

/-- A `Command` entry of the `COMMANDS` table. -/
structure Command where
  name : String
  description : String
  usage : Option String := none
  deriving DecidableEq, Repr

def COMMANDS : List Command := [
  { name := "/clear", description := "Clear chat history" },
  { name := "/exit", description := "Exit the application" },
  { name := "/quit", description := "Exit the application (alias)" },
  { name := "/model", description := "Switch AI model", usage := some "/model <model-name>" },
  { name := "/models", description := "List available models" },
  { name := "/help", description := "Show this help message" },
  { name := "/sessions", description := "List recent sessions" },
  { name := "/resume", description := "Resume a session", usage := some "/resume <id>" },
  { name := "/new", description := "Start a new session" }]

def AVAILABLE_MODELS : List String :=
  ["gpt-5", "gpt-5-mini", "gpt-5-nano", "o1", "o3-mini",
   "gpt-4o", "gpt-4o-mini", "gpt-4-turbo", "gpt-3.5-turbo"]

/-- The React state of the `Chat` component, together with the two
mutable refs (`titleGeneratedRef` → `titleGenerated`,
`sessionCreatedAtRef` → `sessionCreatedAt`). -/
structure ChatState where
  messages : List Message := []
  input : String := ""
  isLoading : Bool := false
  isThinking : Bool := false
  streamingContent : String := ""
  currentModel : String := "gpt-4o-mini"
  sessionId : String := ""
  sessionTitle : String := ""
  isInitialized : Bool := false
  pendingSession : Option Session := none
  showCommands : Bool := false
  selectedCommandIndex : Nat := 0
  filteredCommands : List Command := []
  showModelSelector : Bool := false
  selectedModelIndex : Nat := 0
  showFileSelector : Bool := false
  fileList : List String := []
  selectedFileIndex : Nat := 0
  attachedFiles : List String := []
  scrollOffset : Nat := 0
  titleGenerated : Bool := false
  sessionCreatedAt : Nat := 0
  deriving DecidableEq, Repr

def assistantMessage (content : String) : Message :=
  { role := .assistant, content := content }

/-- `handleModelSwitch` (the `/model <name>` path). -/
def handleModelSwitch (modelName : String) (s : ChatState) : ChatState :=
  let trimmedModel := jsTrim modelName
  if AVAILABLE_MODELS.contains trimmedModel then
    { s with currentModel := trimmedModel,
             messages := s.messages ++
               [assistantMessage ("✅ Model switched to " ++ trimmedModel)] }
  else
    { s with messages := s.messages ++
        [assistantMessage ("❌ Unknown model: " ++ trimmedModel ++
          "\nAvailable models: " ++ jsJoin ", " AVAILABLE_MODELS)] }

/-- `showModels`: open the model picker seeded at the current model's
index (`indexOf` yields -1 for an unknown model, which falls back to 0). -/
def showModelsAction (s : ChatState) : ChatState :=
  { s with showModelSelector := true,
           selectedModelIndex :=
             if AVAILABLE_MODELS.contains s.currentModel then
               AVAILABLE_MODELS.indexOf s.currentModel
             else 0 }

def padEnd (s : String) (n : Nat) : String :=
  s ++ String.mk (List.replicate (n - s.length) ' ')

/-- The `/help` message content (command table plus the shortcut/tips
text; terminal emoji transcribed from the UTF-8 source). -/
def helpContent : String :=
  let helpText := jsJoin "\n" (COMMANDS.map (fun cmd =>
    "  " ++ padEnd cmd.name 12 ++ " " ++ cmd.description ++
      (match cmd.usage with | some u => " (" ++ u ++ ")" | none => "")))
  "📖 Available Commands:\n\n" ++ helpText ++
    "\n\nKeyboard Shortcuts:\n  Ctrl+R         Regenerate last response\n  Ctrl+L         Clear chat history\n  Ctrl+P/↑       Edit last user message\n  Ctrl+U         Scroll up messages\n  Ctrl+D         Scroll down messages\n  Shift+Enter    Insert new line (multiline input)\n  ESC            Exit / Cancel selection\n\nTips:\n• Type / and use ↑↓ to select commands\n• Use @filename to attach files\n• Use Shift+Enter for multiline messages"

def showHelpAction (s : ChatState) : ChatState :=
  { s with messages := s.messages ++ [assistantMessage helpContent] }

/-- The announcement appended after a successful resume. -/
def resumedAnnouncement (title : String) : Message :=
  assistantMessage ("✅ Resumed session: \"" ++ title ++ "\"")

/-- The resolution step of `resumeSession`: a prefix match over the listed
(newest 10) sessions, else an exact `loadSession`. -/
def resolveSession (targetSessionId : String) (store : Store) : Option Session :=
  ((listSessions store).find? (fun sess => jsStartsWith sess.id targetSessionId)).orElse
    (fun _ => loadSession targetSessionId store)

/-- `resumeSession` (the `/resume <idOrPrefix>` path). -/
def resumeSession (targetSessionId : String) (store : Store) (s : ChatState) : ChatState :=
  match resolveSession targetSessionId store with
  | some session =>
    { s with messages := session.messages ++ [resumedAnnouncement session.title],
             currentModel := session.model,
             sessionId := session.id,
             sessionTitle := session.title,
             sessionCreatedAt := session.createdAt,
             titleGenerated := true }
  | none =>
    { s with messages := s.messages ++
        [assistantMessage ("❌ Session not found: " ++ targetSessionId)] }

/-- `startNewSession` (`newSessionId` and `now` stand for
`generateSessionId()` and `Date.now()`). -/
def startNewSession (newSessionId : String) (now : Nat) (s : ChatState) : ChatState :=
  { s with messages := [assistantMessage "✅ Started new session"],
           sessionId := newSessionId,
           sessionTitle := "",
           titleGenerated := false,
           sessionCreatedAt := now }

/-- `handleResumePrompt`: the Y/N answer to the staged resume candidate.
Note that the accept path restores neither `sessionCreatedAtRef` (unlike
`resumeSession`) — it only restores messages/model/id/title. -/
def handleResumePrompt (accept : Bool) (newSessionId : String) (s : ChatState) : ChatState :=
  match s.pendingSession with
  | some pending =>
    if accept then
      { s with messages := pending.messages ++ [resumedAnnouncement pending.title],
               currentModel := pending.model,
               sessionId := pending.id,
               sessionTitle := pending.title,
               titleGenerated := true,
               pendingSession := none }
    else
      { s with sessionId := newSessionId, pendingSession := none }
  | none => { s with sessionId := newSessionId, pendingSession := none }

/-- The auto-save effect body (`saveCurrentSession`): the snapshot written
to the store after a `messages` change, guarded by
`isInitialized && messages.length > 0 && sessionId`.  JS falsiness: an
empty `sessionTitle` is saved as "Untitled" and a zero
`sessionCreatedAtRef.current` is replaced by `Date.now()`. -/
def saveCurrentSession (s : ChatState) (now : Nat) : Option Session :=
  if s.isInitialized && !s.messages.isEmpty && s.sessionId != "" then
    some { id := s.sessionId,
           title := if s.sessionTitle = "" then "Untitled" else s.sessionTitle,
           createdAt := if s.sessionCreatedAt = 0 then now else s.sessionCreatedAt,
           updatedAt := now,
           messages := s.messages,
           model := s.currentModel }
  else none

/-! ### Attachment expansion and the submit path -/

/-- The >1000-line truncation applied to attached file contents. -/
def truncateFileContent (content : String) : String :=
  let lines := jsSplitChar '\n' content
  if lines.length > 1000 then
    jsJoin "\n" (lines.take 1000) ++ "\n\n... (truncated, 1000+ lines)"
  else content

/-- One labeled block per attached file (`fileRead` is the filesystem:
`none` = the read threw, producing the error marker block). -/
def attachmentBlock (fileRead : String → Option String) (filePath : String) : String :=
  match fileRead filePath with
  | some content =>
    "文件\"" ++ filePath ++ "\", 内容是：\n```\n" ++ truncateFileContent content ++ "\n```"
  | none => "[无法读取文件: " ++ filePath ++ "]"

/-- The attachment-expansion step of `handleSubmit`: with attached files,
their labeled blocks are appended to the outgoing text. -/
def expandAttachments (fileRead : String → Option String) (attachedFiles : List String)
    (trimmedValue : String) : String :=
  if attachedFiles.isEmpty then trimmedValue
  else
    trimmedValue ++ "\n\n" ++
      jsJoin "\n\n" (attachedFiles.map (attachmentBlock fileRead))

/-- The outcome of the completion request issued by `handleSubmit`. -/
inductive StreamOutcome where
  | createFailed (errMessage : String)
  | midStreamError (partText : String) (errMessage : String)
  | completed (fullContent : String)
  deriving DecidableEq, Repr

/-- The external world of one `handleSubmit` call: the title request, the
filesystem, the completion stream, fresh identifiers/timestamps, and the
locale date formatters used by `/sessions`. -/
structure SubmitEnv where
  titleResult : Option String := none
  fileRead : String → Option String := fun _ => none
  streamOutcome : StreamOutcome := .createFailed "network"
  newSessionId : String := ""
  now : Nat := 0
  formatDate : Nat → String := fun _ => ""
  formatTime : Nat → String := fun _ => ""

/-- The `/sessions` listing message. -/
def showSessionsAction (store : Store) (env : SubmitEnv) (s : ChatState) : ChatState :=
  let sessions := listSessions store
  if sessions.isEmpty then
    { s with messages := s.messages ++ [assistantMessage "No saved sessions found."] }
  else
    let sessionList := jsJoin "\n" (sessions.enum.map (fun p =>
      "  " ++ toString (p.1 + 1) ++ ". " ++ p.2.title ++ " | " ++
        env.formatDate p.2.updatedAt ++ " " ++ env.formatTime p.2.updatedAt ++ " | " ++
        toString p.2.messages.length ++ " messages"))
    { s with messages := s.messages ++ [assistantMessage
        ("📚 Recent Sessions (last 10):\n\n" ++ sessionList ++
          "\n\nUse /resume <id> to restore a session.\nCurrent session ID: " ++
          jsTake s.sessionId 8 ++ "...")] }

/-- The settle step of the stream: flip the last message (if it is an
assistant message) to the final content, `isStreaming := false`, and stamp
the model. -/
def finalizeLastMessage (fullContent : String) (model : String)
    (messages : List Message) : List Message :=
  match messages.getLast? with
  | some lastMessage =>
    if lastMessage.role = .assistant then
      messages.dropLast ++
        [{ lastMessage with content := fullContent, isStreaming := false,
                            model := some model }]
    else messages
  | none => messages

/-- The placeholder assistant message appended when the stream opens. -/
def streamingPlaceholder (model : String) : Message :=
  { role := .assistant, content := "", isStreaming := true, model := some model }

structure SubmitResult where
  state : ChatState
  startedStream : Bool
  exited : Bool
  deriving DecidableEq, Repr

/-- The non-command tail of `handleSubmit`: attachment expansion, the
user-message append (with `setInput('')`, clearing of the attachment list
and the loading/thinking flags), first-user-message title generation
(seeded with the raw `value`, gated on the pre-append message list being
empty), the completion stream, and the `finally` block. -/
def submitChat (s : ChatState) (env : SubmitEnv) (value : String) : SubmitResult :=
  let trimmedValue := jsTrim value
  let finalContent := expandAttachments env.fileRead s.attachedFiles trimmedValue
  let userMessage : Message := { role := .user, content := finalContent }
  let s1 := { s with messages := s.messages ++ [userMessage],
                     input := "",
                     attachedFiles := [],
                     isLoading := true,
                     isThinking := true,
                     streamingContent := "" }
  let s2 := if !s.titleGenerated && s.messages.isEmpty then
              { s1 with titleGenerated := true,
                        sessionTitle := generateSessionTitle env.titleResult value }
            else s1
  let s3 :=
    match env.streamOutcome with
    | .createFailed errMessage =>
      -- the create call threw before the placeholder was appended
      { s2 with messages := s2.messages ++
          [assistantMessage ("Error: " ++ errMessage)] }
    | .midStreamError _partText errMessage =>
      -- the placeholder was appended with isStreaming=true, deltas
      -- accumulated only in streamingContent, then the iteration threw:
      -- the catch block appends an error message after the
      -- still-streaming placeholder
      { s2 with messages := s2.messages ++
          [streamingPlaceholder s.currentModel,
           assistantMessage ("Error: " ++ errMessage)] }
    | .completed fullContent =>
      let appended := s2.messages ++ [streamingPlaceholder s.currentModel]
      { s2 with messages := finalizeLastMessage fullContent s.currentModel appended }
  -- the finally block
  ⟨{ s3 with isLoading := false, streamingContent := "", isThinking := false },
   true, false⟩

/-- `handleSubmit` of `Chat.tsx`.  The first two guards reject the call
while a completion is in flight or an overlay is open; the slash-command
branches dispatch internal actions; otherwise the attachment-expansion,
user-message append, first-message title generation, and the completion
stream run.  `startedStream` records whether the completion request was
issued; `exited` records the `/exit` / `/quit` path. -/
def submit (s : ChatState) (store : Store) (env : SubmitEnv) (value : String) : SubmitResult :=
  if s.isLoading || s.isThinking then ⟨s, false, false⟩
  else if s.showCommands || s.showModelSelector || s.showFileSelector then ⟨s, false, false⟩
  else if jsTrim value = "" then ⟨s, false, false⟩
  else
    let trimmedValue := jsTrim value
    if trimmedValue = "/clear" then
      ⟨{ s with messages := [], input := "" }, false, false⟩
    else if trimmedValue = "/exit" ∨ trimmedValue = "/quit" then
      ⟨s, false, true⟩
    else if trimmedValue = "/help" then
      ⟨{ showHelpAction s with input := "" }, false, false⟩
    else if trimmedValue = "/models" then
      ⟨{ showModelsAction s with input := "" }, false, false⟩
    else if jsStartsWith trimmedValue "/model " then
      ⟨{ handleModelSwitch (jsTrim (jsDrop trimmedValue 7)) s with input := "" }, false, false⟩
    else if trimmedValue = "/model" then
      ⟨{ showModelsAction s with input := "" }, false, false⟩
    else if trimmedValue = "/sessions" then
      ⟨{ showSessionsAction store env s with input := "" }, false, false⟩
    else if jsStartsWith trimmedValue "/resume " then
      ⟨{ resumeSession (jsTrim (jsDrop trimmedValue 8)) store s with input := "" }, false, false⟩
    else if trimmedValue = "/new" then
      ⟨{ startNewSession env.newSessionId env.now s with input := "" }, false, false⟩
    else submitChat s env value

/-! ### The input-overlay effects and key handlers (claim C7) -/

def lastIndexOfCharAux (c : Char) : List Char → Nat → Option Nat → Option Nat
  | [], _, acc => acc
  | x :: rest, i, acc =>
    lastIndexOfCharAux c rest (i + 1) (if x = c then some i else acc)

/-- `String.prototype.lastIndexOf(c)` (`none` = JS -1). -/
def lastIndexOfChar (s : String) (c : Char) : Option Nat :=
  lastIndexOfCharAux c s.data 0 none

/-- The JS regex class `\w`. -/
def isWordChar (c : Char) : Bool := c.isAlphanum || c = '_'

/-- The command-filter effect (deps `[input, showModelSelector,
showFileSelector]`): while the input starts with `/`, filter the command
table by case-insensitive prefix match and open the palette when the
filter is non-empty and neither the model picker nor the file picker is
open. -/
def commandsEffect (s : ChatState) : ChatState :=
  if jsStartsWith s.input "/" then
    let query := jsToLower s.input
    let filtered := COMMANDS.filter (fun cmd => jsStartsWith (jsToLower cmd.name) query)
    { s with filteredCommands := filtered,
             showCommands := !filtered.isEmpty && s.input.length > 0 &&
               !s.showModelSelector && !s.showFileSelector,
             selectedCommandIndex := 0 }
  else { s with showCommands := false }

/-- The `@`-file-autocomplete effect (deps `[input]`): when the input has
a `@` not preceded by a word character and with no space after it, the
directory scan result (`scanResult`, the async `scanFiles` value) opens
the file picker if non-empty.  Note that, unlike `commandsEffect`, this
effect checks neither `showModelSelector` nor `showCommands` nor the
staged resume prompt. -/
def fileEffect (scanResult : List String) (s : ChatState) : ChatState :=
  match lastIndexOfChar s.input '@' with
  | some atIndex =>
    let afterAt := String.mk (s.input.data.drop (atIndex + 1))
    let charBeforeIsWord :=
      match atIndex with
      | 0 => false
      | i + 1 => isWordChar ((s.input.data.drop i).headD ' ')
    if !afterAt.data.contains ' ' && !charBeforeIsWord then
      { s with fileList := scanResult,
               showFileSelector := !scanResult.isEmpty,
               selectedFileIndex := 0 }
    else { s with showFileSelector := false }
  | none => { s with showFileSelector := false }

/-- One settled round of the two input-driven effects: they run in
declaration order (command filter, then file autocomplete), and the
command filter re-runs because its dependency list includes
`showFileSelector`. -/
def runEffects (scanResult : List String) (s : ChatState) : ChatState :=
  commandsEffect (fileEffect scanResult (commandsEffect s))

/-- The user edits the input line.  ink's `TextInput` feeds `setInput`
regardless of which overlays are open (the `Chat.tsx` input carries no
`focus` guard), after which the effects settle. -/
def typeInput (newInput : String) (scanResult : List String) (s : ChatState) : ChatState :=
  runEffects scanResult { s with input := newInput }

/-- `handleCommandSelect`: committing a palette entry either opens the
model picker (for `/model` / `/models`) or inserts the command text. -/
def handleCommandSelect (cmd : Command) (s : ChatState) : ChatState :=
  if cmd.name = "/models" ∨ cmd.name = "/model" then
    { s with showModelSelector := true,
             showCommands := false,
             selectedModelIndex :=
               if AVAILABLE_MODELS.contains s.currentModel then
                 AVAILABLE_MODELS.indexOf s.currentModel
               else 0,
             input := "" }
  else { s with input := cmd.name ++ " ", showCommands := false }

/-- `handleModelSelect`: committing the model picker selection. -/
def handleModelSelect (modelIndex : Nat) (s : ChatState) : ChatState :=
  match AVAILABLE_MODELS.get? modelIndex with
  | some selectedModel =>
    { s with currentModel := selectedModel,
             messages := s.messages ++
               [assistantMessage ("✅ Model switched to " ++ selectedModel)],
             showModelSelector := false,
             input := "" }
  | none => { s with showModelSelector := false, input := "" }

/-- Committing the file picker selection: splice the file name in place
of the `@query`, record the attachment, close the picker. -/
def fileSelectEnter (s : ChatState) : ChatState :=
  match s.fileList.get? s.selectedFileIndex with
  | some selectedFile =>
    let atIndex := (lastIndexOfChar s.input '@').getD 0
    let beforeAt := String.mk (s.input.data.take atIndex)
    { s with input := beforeAt ++ selectedFile ++ " ",
             attachedFiles := s.attachedFiles ++ [selectedFile],
             showFileSelector := false }
  | none => s

/-- The Enter/Tab key in the `useInput` handler (the staged resume prompt
swallows every key except Y/N; otherwise the innermost open picker commits
its selection).  The parallel `TextInput.onSubmit` call of `handleSubmit`
is a no-op in each of these states because of its overlay guard. -/
def enterKey (scanResult : List String) (s : ChatState) : ChatState :=
  if s.pendingSession.isSome then s
  else if s.showFileSelector then runEffects scanResult (fileSelectEnter s)
  else if s.showModelSelector then
    runEffects scanResult (handleModelSelect s.selectedModelIndex s)
  else if s.showCommands then
    match s.filteredCommands.get? s.selectedCommandIndex with
    | some cmd => runEffects scanResult (handleCommandSelect cmd s)
    | none => s
  else s

/-- How many overlay modes are open at once. -/
def overlayCount (s : ChatState) : Nat :=
  (if s.showCommands then 1 else 0) + (if s.showModelSelector then 1 else 0) +
    (if s.showFileSelector then 1 else 0) + (if s.pendingSession.isSome then 1 else 0)


/-! ### Claim theorems: submit guards, streaming invariant, resume,
title fallback, attachments -/

/-- Whether `handleSubmit` dispatches the trimmed input to one of its
slash-command branches instead of the completion pipeline. -/
def isDispatchedCommand (t : String) : Bool :=
  decide (t = "/clear") || decide (t = "/exit") || decide (t = "/quit") ||
    decide (t = "/help") || decide (t = "/models") || jsStartsWith t "/model " ||
    decide (t = "/model") || decide (t = "/sessions") || jsStartsWith t "/resume " ||
    decide (t = "/new")

/-- Under the no-busy/no-overlay guards, a non-empty non-command input
reaches the completion pipeline. -/
theorem submit_eq_submitChat (s : ChatState) (store : Store) (env : SubmitEnv)
    (value : String)
    (hbusy : (s.isLoading || s.isThinking) = false)
    (hov : (s.showCommands || s.showModelSelector || s.showFileSelector) = false)
    (hne : jsTrim value ≠ "")
    (hcmd : isDispatchedCommand (jsTrim value) = false) :
    submit s store env value = submitChat s env value := by
  simp only [isDispatchedCommand, Bool.or_eq_false_iff, decide_eq_false_iff_not] at hcmd
  obtain ⟨⟨⟨⟨⟨⟨⟨⟨⟨h1, h2⟩, h3⟩, h4⟩, h5⟩, h6⟩, h7⟩, h8⟩, h9⟩, h10⟩ := hcmd
  unfold submit
  rw [hbusy, hov]
  simp only [Bool.false_eq_true, if_false]
  rw [if_neg hne, if_neg h1, if_neg (not_or.mpr ⟨h2, h3⟩), if_neg h4, if_neg h5,
    if_neg (by simp [h6]), if_neg h7, if_neg h8, if_neg (by simp [h9]), if_neg h10]

/-- Claim C1: while a completion is in flight (`isLoading` or
`isThinking`) or an overlay mode (command palette, model picker, file
picker) is open, `submit` with any text is a no-op: the whole state —
message list and input-derived state included — is returned unchanged, no
completion stream is started, and the app does not exit. -/
theorem submit_noop_when_busy (s : ChatState) (store : Store) (env : SubmitEnv)
    (value : String)
    (h : s.isLoading = true ∨ s.isThinking = true ∨ s.showCommands = true ∨
         s.showModelSelector = true ∨ s.showFileSelector = true) :
    submit s store env value = ⟨s, false, false⟩ := by
  by_cases hbusy : (s.isLoading || s.isThinking) = true
  · unfold submit
    rw [if_pos hbusy]
  · have hov : (s.showCommands || s.showModelSelector || s.showFileSelector) = true := by
      rcases h with h | h | h | h | h
      · exact absurd (by simp [h]) hbusy
      · exact absurd (by simp [h]) hbusy
      · simp [h]
      · simp [h]
      · simp [h]
    unfold submit
    rw [if_neg hbusy, if_pos hov]


def c1state : ChatState := { isInitialized := true, showCommands := true }

theorem submit_noop_when_busy_witness :
    submit c1state [] {} "hello" = ⟨c1state, false, false⟩ :=
  submit_noop_when_busy c1state [] {} "hello" (Or.inr (Or.inr (Or.inl rfl)))

/-- The streaming invariant of the spec: at most one message has
`isStreaming = true` and it is the last element — equivalently, every
message except the last has `isStreaming = false`. -/
def streamingOk (messages : List Message) : Bool :=
  messages.dropLast.all (fun m => !m.isStreaming)

def c2state : ChatState := { isInitialized := true, titleGenerated := true }

def c2env : SubmitEnv := { streamOutcome := .midStreamError "partial text" "boom" }

/-- Claim C2 (violated by the code): when the completion stream errors
mid-flight, the catch block of `handleSubmit` appends the error message
after the still-streaming placeholder instead of replacing it, leaving a
message with `isStreaming = true` that is not the last element (and is
never un-flagged).  Concretely, submitting "hi" to an empty idle session
whose stream errors after opening yields
`[user "hi", placeholder (isStreaming = true), assistant "Error: boom"]`,
which falsifies the invariant. -/
theorem streaming_invariant_violated :
    (submit c2state [] c2env "hi").state.messages =
      [{ role := .user, content := "hi" },
       streamingPlaceholder "gpt-4o-mini",
       assistantMessage "Error: boom"] ∧
    (streamingPlaceholder "gpt-4o-mini").isStreaming = true ∧
    streamingOk (submit c2state [] c2env "hi").state.messages = false := by
  decide


/-! ### Resume (claims C4 and C6) -/

def c6pending : Session :=
  { id := "sess-orig", title := "Old chat", createdAt := 5, updatedAt := 6,
    messages := [{ role := .user, content := "hi" }], model := "gpt-4o" }

def c6state : ChatState :=
  { isInitialized := true, sessionId := "fresh-id",
    pendingSession := some c6pending }

/-- Claim C6 (violated by the code): accepting the resume prompt restores
the resumed session's id (so the id part of the claim holds on this path)
but — unlike `resumeSession` — does not restore `sessionCreatedAtRef`.
The ref still holds its initial 0, which is falsy, so the next auto-save
stamps `createdAt := Date.now()` instead of the session's creation time:
resuming `c6pending` (createdAt = 5) via Y and saving at time 100 writes a
session with createdAt = 100. -/
theorem resume_prompt_createdAt_lost :
    (handleResumePrompt true "unused-fresh" c6state).sessionId = c6pending.id ∧
    c6pending.createdAt = 5 ∧
    (saveCurrentSession (handleResumePrompt true "unused-fresh" c6state) 100).map
      (fun sess => sess.createdAt) = some 100 ∧
    (saveCurrentSession (handleResumePrompt true "unused-fresh" c6state) 100).map
      (fun sess => sess.id) = some c6pending.id := by
  decide

def c4sess : Session :=
  { id := "abc123", title := "Trip", createdAt := 3, updatedAt := 9,
    messages := [{ role := .user, content := "hello" }], model := "gpt-4o" }

def c4store : Store := [("abc123", c4sess)]

def c4state : ChatState := { isInitialized := true, sessionId := "cur" }

/-- Claim C4 counterexample: resuming by the prefix "abc" resolves
`c4sess`, but the resulting message list is not exactly the resolved
session's: the code appends a "Resumed session" announcement after it. -/
theorem resume_messages_not_exact :
    resolveSession "abc" c4store = some c4sess ∧
    (resumeSession "abc" c4store c4state).messages ≠ c4sess.messages ∧
    (resumeSession "abc" c4store c4state).messages =
      c4sess.messages ++ [resumedAnnouncement c4sess.title] := by
  decide

/-- Claim C4 (amended): resume resolves via the session store (prefix
match over the listed sessions, else exact load).  On a hit the active
session's id, title, model and createdAt become exactly the resolved
session's and the message list becomes the resolved session's messages
followed by one appended assistant-role resume announcement; on a miss a
single assistant-role announcement reporting the failure is appended and
the rest of the active session state is unchanged. -/
theorem resume_behavior (targetSessionId : String) (store : Store) (s : ChatState) :
    (∀ sess, resolveSession targetSessionId store = some sess →
      (resumeSession targetSessionId store s).sessionId = sess.id ∧
      (resumeSession targetSessionId store s).sessionTitle = sess.title ∧
      (resumeSession targetSessionId store s).currentModel = sess.model ∧
      (resumeSession targetSessionId store s).sessionCreatedAt = sess.createdAt ∧
      (resumeSession targetSessionId store s).messages =
        sess.messages ++ [resumedAnnouncement sess.title] ∧
      (resumedAnnouncement sess.title).role = Role.assistant) ∧
    (resolveSession targetSessionId store = none →
      (resumeSession targetSessionId store s).messages =
        s.messages ++ [assistantMessage ("❌ Session not found: " ++ targetSessionId)] ∧
      (assistantMessage ("❌ Session not found: " ++ targetSessionId)).role =
        Role.assistant ∧
      (resumeSession targetSessionId store s).sessionId = s.sessionId ∧
      (resumeSession targetSessionId store s).sessionTitle = s.sessionTitle ∧
      (resumeSession targetSessionId store s).currentModel = s.currentModel ∧
      (resumeSession targetSessionId store s).sessionCreatedAt = s.sessionCreatedAt ∧
      (resumeSession targetSessionId store s).input = s.input ∧
      (resumeSession targetSessionId store s).attachedFiles = s.attachedFiles) := by
  constructor
  · intro sess hres
    simp [resumeSession, hres, resumedAnnouncement, assistantMessage]
  · intro hres
    simp [resumeSession, hres, assistantMessage]

theorem resume_behavior_witness :
    (resumeSession "abc" c4store c4state).sessionId = c4sess.id :=
  ((resume_behavior "abc" c4store c4state).1 c4sess (by decide)).1

/-! ### Overlay exclusivity (claim C7) -/

def c7s0 : ChatState := { isInitialized := true }

def c7s1 : ChatState := typeInput "/models" [] c7s0

def c7s2 : ChatState := enterKey [] c7s1

def c7s3 : ChatState := typeInput "@a" ["a.txt"] c7s2

/-- Claim C7 (violated by the code): the `@`-autocomplete effect does not
check `showModelSelector` (and `Chat.tsx`'s `TextInput` keeps focus while
the model picker is open), so typing `/models`, committing it with Enter
(which opens the model picker), then typing `@a` while a file `a.txt`
matches opens the file picker on top of the model picker: two overlay
modes are open at once. -/
theorem overlay_exclusivity_violated :
    c7s1.showCommands = true ∧ overlayCount c7s1 = 1 ∧
    c7s2.showModelSelector = true ∧ overlayCount c7s2 = 1 ∧
    c7s3.showModelSelector = true ∧ c7s3.showFileSelector = true ∧
    overlayCount c7s3 = 2 := by
  decide


/-! ### Title fallback and attachments through submit (claims C8, C10) -/

theorem submitChat_attachedFiles (s : ChatState) (env : SubmitEnv) (value : String) :
    (submitChat s env value).state.attachedFiles = [] := by
  unfold submitChat
  by_cases hc : (!s.titleGenerated && s.messages.isEmpty) = true <;>
    cases env.streamOutcome <;> simp [hc]

theorem submitChat_sessionTitle_first (s : ChatState) (env : SubmitEnv) (value : String)
    (hfirst : s.messages = []) (htitle : s.titleGenerated = false) :
    (submitChat s env value).state.sessionTitle =
      generateSessionTitle env.titleResult value := by
  unfold submitChat
  cases env.streamOutcome <;> simp [hfirst, htitle]

theorem submitChat_title_independent (s : ChatState) (env : SubmitEnv) (value : String)
    (tr : Option String) :
    (submitChat s { env with titleResult := tr } value).state.messages =
      (submitChat s env value).state.messages := by
  unfold submitChat
  by_cases hc : (!s.titleGenerated && s.messages.isEmpty) = true <;>
    cases env.streamOutcome <;> simp [hc]

theorem submitChat_first_message (s : ChatState) (env : SubmitEnv) (value : String)
    (hfirst : s.messages = []) :
    (submitChat s env value).state.messages.take 1 =
      [{ role := .user,
         content := expandAttachments env.fileRead s.attachedFiles (jsTrim value) }] := by
  unfold submitChat
  cases env.streamOutcome <;>
    simp [hfirst, finalizeLastMessage, streamingPlaceholder, assistantMessage,
      apply_ite ChatState.messages]


/-- A 35-character single-word message: its 5-word prefix is itself. -/
def c8msg : String := String.mk (List.replicate 35 'a')

/-- Claim C8 counterexample: when the title request fails on `c8msg`
(one 35-character word), the fallback title is the 30-character prefix
with an appended "..." — 33 characters, not capped at 30, and not equal
to the prefix truncated to 30 characters. -/
theorem title_fallback_cap_counterexample :
    (generateSessionTitle none c8msg).length = 33 ∧
    ¬ (generateSessionTitle none c8msg).length ≤ 30 ∧
    generateSessionTitle none c8msg ≠ jsTake c8msg 30 := by
  decide

/-- Claim C8 (amended): for a first user message whose title request
fails, the session title after `submit` becomes the first 5
space-separated words of the message; when that prefix exceeds 30
characters the title is its first 30 characters with an appended ellipsis
"..." (so up to 33 characters, not 30).  The title request does not block
the submission: the resulting message list is identical whatever the title
request returns, and its first element is the submitted user message. -/
theorem title_fallback_behavior (s : ChatState) (store : Store) (env : SubmitEnv)
    (value : String)
    (hbusy : (s.isLoading || s.isThinking) = false)
    (hov : (s.showCommands || s.showModelSelector || s.showFileSelector) = false)
    (hne : jsTrim value ≠ "")
    (hcmd : isDispatchedCommand (jsTrim value) = false)
    (hfirst : s.messages = [])
    (htitle : s.titleGenerated = false)
    (hfail : env.titleResult = none) :
    (submit s store env value).state.sessionTitle = fallbackTitle value ∧
    ((jsJoin " " ((jsSplitChar ' ' value).take 5)).length ≤ 30 →
      (submit s store env value).state.sessionTitle =
        jsJoin " " ((jsSplitChar ' ' value).take 5)) ∧
    (30 < (jsJoin " " ((jsSplitChar ' ' value).take 5)).length →
      (submit s store env value).state.sessionTitle =
        jsTake (jsJoin " " ((jsSplitChar ' ' value).take 5)) 30 ++ "...") ∧
    (∀ tr, (submit s store { env with titleResult := tr } value).state.messages =
      (submit s store env value).state.messages) ∧
    (submit s store env value).state.messages.take 1 =
      [{ role := .user,
         content := expandAttachments env.fileRead s.attachedFiles (jsTrim value) }] := by
  rw [submit_eq_submitChat s store env value hbusy hov hne hcmd]
  have htitleEq : (submitChat s env value).state.sessionTitle = fallbackTitle value := by
    rw [submitChat_sessionTitle_first s env value hfirst htitle, hfail]
    rfl
  refine ⟨htitleEq, ?_, ?_, ?_, ?_⟩
  · intro hle
    rw [htitleEq]
    simp only [fallbackTitle]
    rw [if_neg (by omega)]
  · intro hgt
    rw [htitleEq]
    simp only [fallbackTitle]
    rw [if_pos hgt]
  · intro tr
    rw [submit_eq_submitChat s store { env with titleResult := tr } value hbusy hov hne hcmd]
    exact submitChat_title_independent s env value tr
  · exact submitChat_first_message s env value hfirst

def c8state : ChatState := { isInitialized := true }

def c8env : SubmitEnv := { titleResult := none, streamOutcome := .completed "sure" }

theorem title_fallback_behavior_witness :
    (submit c8state [] c8env c8msg).state.sessionTitle = fallbackTitle c8msg :=
  (title_fallback_behavior c8state [] c8env c8msg (by decide) (by decide) (by decide)
    (by decide) (by decide) (by decide) (by decide)).1

/-- Claim C10: `/clear` empties the message list and the input buffer but
leaves the attached-file list intact; the next non-command submission
therefore inlines the previously attached files' labeled blocks into its
user message, after which the attachment list is emptied. -/
theorem clear_keeps_attachments (s : ChatState) (store : Store) (env : SubmitEnv)
    (text : String)
    (hbusy : (s.isLoading || s.isThinking) = false)
    (hov : (s.showCommands || s.showModelSelector || s.showFileSelector) = false)
    (hne : jsTrim text ≠ "")
    (hcmd : isDispatchedCommand (jsTrim text) = false)
    (hatt : s.attachedFiles ≠ []) :
    (submit s store env "/clear").state.messages = [] ∧
    (submit s store env "/clear").state.input = "" ∧
    (submit s store env "/clear").state.attachedFiles = s.attachedFiles ∧
    (submit (submit s store env "/clear").state store env text).state.messages.take 1 =
      [{ role := .user,
         content := jsTrim text ++ "\n\n" ++
           jsJoin "\n\n" (s.attachedFiles.map (attachmentBlock env.fileRead)) }] ∧
    (submit (submit s store env "/clear").state store env text).state.attachedFiles = [] := by
  have hclear : submit s store env "/clear" =
      ⟨{ s with messages := [], input := "" }, false, false⟩ := by
    unfold submit
    rw [hbusy, hov]
    simp only [Bool.false_eq_true, if_false]
    rw [if_neg (show ¬ jsTrim "/clear" = "" by decide)]
    rw [if_pos (show jsTrim "/clear" = "/clear" by decide)]
  rw [hclear]
  have hsub : submit { s with messages := [], input := "" } store env text =
      submitChat { s with messages := [], input := "" } env text :=
    submit_eq_submitChat { s with messages := [], input := "" } store env text
      hbusy hov hne hcmd
  refine ⟨rfl, rfl, rfl, ?_, ?_⟩
  · rw [hsub]
    rw [submitChat_first_message { s with messages := [], input := "" } env text rfl]
    simp only [expandAttachments]
    rw [if_neg (by simpa using hatt)]
  · rw [hsub]
    exact submitChat_attachedFiles { s with messages := [], input := "" } env text


def c10state : ChatState := { isInitialized := true, attachedFiles := ["notes.txt"] }

def c10env : SubmitEnv :=
  { fileRead := fun _ => some "line1", streamOutcome := .completed "ok" }

theorem clear_keeps_attachments_witness :
    (submit (submit c10state [] c10env "/clear").state [] c10env
      "hello").state.attachedFiles = [] :=
  (clear_keeps_attachments c10state [] c10env "hello" (by decide) (by decide)
    (by decide) (by decide) (by decide)).2.2.2.2

end GptCli
